import Mathlib

/-!
Shallow embedding of the freelo-mcp remote-resource client
(`src/utils/freeloApi.ts` and the statistics logic of
`src/tools/FreeloListTaskSubtasks.ts`).

JavaScript values relevant to the client are modelled as follows:
* JSON values are an inductive `Json` (numbers as `Int`; the client never
  inspects fractional numbers).
* A JS object is a list of string-keyed fields; `JSON.parse` keeps the last
  duplicate key, so field lookup is last-wins (`jsLookup`).
* `undefined` is `Option.none` where a lookup may miss.
* The network is an oracle parameter: `Except String JsonHttpResponse`
  (`Except.error m` is a rejected `fetch` whose `Error.message` is `m`).
* Thrown `Error`s are `Except.error msg` carrying the error's message.
-/

inductive Json where
  | null
  | bool (b : Bool)
  | num (n : Int)
  | str (s : String)
  | arr (xs : List Json)
  | obj (fields : List (String × Json))
deriving Repr

/-- Field lookup in a JS object: the last occurrence of a key wins,
matching `JSON.parse` on duplicate keys. -/
def jsLookup (fields : List (String × Json)) (k : String) : Option Json :=
  match fields with
  | [] => none
  | p :: rest =>
    match jsLookup rest k with
    | some v => some v
    | none => if p.fst = k then some p.snd else none

/-- JS property read `v.k` for the cases the client exercises: an object
yields the field (or `undefined` = `none`); any other defined value yields
`undefined`. -/
def jsField (j : Json) (k : String) : Option Json :=
  match j with
  | Json.obj fields => jsLookup fields k
  | _ => none

/-- JS truthiness of a possibly-`undefined` value, as used by `||`. -/
def jsTruthy (v : Option Json) : Bool :=
  match v with
  | none => false
  | some Json.null => false
  | some (Json.bool b) => b
  | some (Json.num n) => n != 0
  | some (Json.str s) => s != ""
  | some (Json.arr _) => true
  | some (Json.obj _) => true

/-- JS `String(v)` coercion applied by the `Error` constructor. -/
def jsToStr (j : Json) : String :=
  match j with
  | Json.null => "null"
  | Json.bool b => if b then "true" else "false"
  | Json.num n => toString n
  | Json.str s => s
  | Json.arr xs => String.intercalate "," (xs.attach.map (fun x => jsToStr x.val))
  | Json.obj _ => "[object Object]"
decreasing_by
  simp_wf
  have h := List.sizeOf_lt_of_mem x.property
  omega

/-- JS `a || b` where `a` is a possibly-`undefined` JSON field and the result
is coerced to the message string of a thrown `Error`. -/
def jsOrElse (v : Option Json) (fallback : String) : String :=
  if jsTruthy v then jsToStr (v.getD Json.null) else fallback

/-- The UTF-8 encoding of one code point, as `Buffer.from` uses. -/
def utf8Char (c : Char) : List Nat :=
  let n := c.toNat
  if n < 128 then [n]
  else if n < 2048 then [192 + n / 64, 128 + n % 64]
  else if n < 65536 then [224 + n / 4096, 128 + (n / 64) % 64, 128 + n % 64]
  else [240 + n / 262144, 128 + (n / 4096) % 64, 128 + (n / 64) % 64, 128 + n % 64]

/-- The UTF-8 byte sequence of a string (`Buffer.from(s)`). -/
def utf8Encode (s : String) : List Nat :=
  (s.data.map utf8Char).flatten

/-- Character `i` of the standard base64 alphabet. -/
def b64Char (i : Nat) : Char :=
  "ABCDEFGHIJKLMNOPQRSTUVWXYZabcdefghijklmnopqrstuvwxyz0123456789+/".toList.getD i '='

/-- Standard base64 encoding of a byte list (`buf.toString('base64')`). -/
def base64Encode : List Nat → String
  | [] => ""
  | [b1] =>
    String.mk [b64Char (b1 / 4), b64Char ((b1 % 4) * 16), '=', '=']
  | [b1, b2] =>
    String.mk [b64Char (b1 / 4), b64Char ((b1 % 4) * 16 + b2 / 16),
               b64Char ((b2 % 16) * 4), '=']
  | b1 :: b2 :: b3 :: rest =>
    String.mk [b64Char (b1 / 4), b64Char ((b1 % 4) * 16 + b2 / 16),
               b64Char ((b2 % 16) * 4 + b3 / 64), b64Char (b3 % 64)]
      ++ base64Encode rest

/-- First-match lookup in a header list (a JS object has unique keys). -/
def lookupStr (xs : List (String × String)) (k : String) : Option String :=
  match xs with
  | [] => none
  | p :: rest => if p.fst = k then some p.snd else lookupStr rest k

/-- JS object-literal spread `\x7b ...base, ...overrides \x7d`: base keys keep
their position but a colliding override value wins; new override keys follow. -/
def mergeHeaders (base overrides : List (String × String)) :
    List (String × String) :=
  base.map (fun p =>
    match lookupStr overrides p.fst with
    | some v => (p.fst, v)
    | none => p)
  ++ overrides.filter (fun p => (lookupStr base p.fst).isNone)

/-- The `RequestInit` options accepted by `FreeloApiClient.request`
(the fields the client reads; `fetch` defaults the method to GET). -/
structure RequestOptions where
  method : String
  headers : List (String × String)
deriving Repr, DecidableEq

/-- The default `options = \x7b\x7d` used by every accessor in the repository. -/
def emptyOptions : RequestOptions :=
  RequestOptions.mk "GET" []

/-- The fixed `baseUrl` of `FreeloApiClient`. -/
def baseUrl : String := "https://api.freelo.io/v1"

/-- Embeds `response.ok`: HTTP status in the 2xx success range. -/
def respOk (status : Nat) : Bool :=
  200 ≤ status && status < 300

/-- A completed HTTP response for the JSON request path. `jsonBody = none`
means the body is not valid JSON, in which case `response.json()` throws a
`SyntaxError` whose message is `jsonParseMsg`. -/
structure JsonHttpResponse where
  status : Nat
  statusText : String
  jsonBody : Option Json
  jsonParseMsg : String
deriving Repr

/-- Embeds the `credentials` value of `request`/`downloadFile`:
`Buffer.from(email:apiKey).toString(base64)`. -/
def credentials (email apiKey : String) : String :=
  base64Encode (utf8Encode (email ++ ":" ++ apiKey))

/-- The `headers` object built by `FreeloApiClient.request`: mandatory
Authorization / User-Agent / Content-Type, then `...options.headers`
spread after them. -/
def requestHeaders (email apiKey : String)
    (overrides : List (String × String)) : List (String × String) :=
  mergeHeaders
    [("Authorization", "Basic " ++ credentials email apiKey),
     ("User-Agent", "freelo-mcp (" ++ email ++ ")"),
     ("Content-Type", "application/json")]
    overrides

/-- The single `fetch` call dispatched by an operation: its URL, method and
header object. -/
structure FetchCall where
  url : String
  method : String
  headers : List (String × String)
deriving Repr, DecidableEq

/-- The `fetch` call dispatched by `FreeloApiClient.request` for a given
endpoint and options. -/
def requestFetchCall (email apiKey endpoint : String)
    (options : RequestOptions) : FetchCall :=
  FetchCall.mk (baseUrl ++ endpoint) options.method
    (requestHeaders email apiKey options.headers)

/-- Embeds `FreeloApiClient.request`: outcome classification. Everything thrown
inside the `try` block (transport rejection, the non-ok-status `Error`, a
`SyntaxError` from `response.json()`) is an `Error`, so the outer `catch`
re-throws it with the `Freelo API error: ` message prefix. -/
def requestM (email apiKey endpoint : String) (options : RequestOptions)
    (net : Except String JsonHttpResponse) : Except String Json :=
  let _call := requestFetchCall email apiKey endpoint options
  let inner : Except String Json :=
    match net with
    | Except.error msg => Except.error msg
    | Except.ok resp =>
      if respOk resp.status then
        match resp.jsonBody with
        | some j => Except.ok j
        | none => Except.error resp.jsonParseMsg
      else
        let defaultMsg :=
          "API request failed: " ++ toString resp.status ++ " " ++ resp.statusText
        let msg :=
          match resp.jsonBody with
          | some j =>
            jsOrElse (jsField j "message") (jsOrElse (jsField j "error") defaultMsg)
          | none => defaultMsg
        Except.error msg
  match inner with
  | Except.ok j => Except.ok j
  | Except.error m => Except.error ("Freelo API error: " ++ m)

/-- Embeds `FreeloApiClient.getTask`: GET `/task/taskId` through `request`. -/
def getTask (email apiKey : String) (taskId : Int)
    (net : Except String JsonHttpResponse) : Except String Json :=
  requestM email apiKey ("/task/" ++ toString taskId) emptyOptions net

/-- Embeds `FreeloApiClient.listTaskSubtasks`: GET `/task/taskId/subtasks`, then
return `response.data.subtasks` (a JS property chain: reading `data` off a
`null` body or `subtasks` off an `undefined` `data` throws a TypeError,
which is outside the executor's `try` and so is not prefixed). -/
def listTaskSubtasks (email apiKey : String) (taskId : Int)
    (net : Except String JsonHttpResponse) : Except String (Option Json) :=
  match requestM email apiKey ("/task/" ++ toString taskId ++ "/subtasks")
      emptyOptions net with
  | Except.error m => Except.error m
  | Except.ok j =>
    match j with
    | Json.null => Except.error "TypeError: Cannot read properties of null (reading data)"
    | _ =>
      match jsField j "data" with
      | none => Except.error "TypeError: Cannot read properties of undefined (reading subtasks)"
      | some Json.null => Except.error "TypeError: Cannot read properties of null (reading subtasks)"
      | some d => Except.ok (jsField d "subtasks")

/-- A completed HTTP response for the binary download path; `bytes` is the
`ArrayBuffer` content as a byte list. -/
structure ByteResponse where
  status : Nat
  statusText : String
  bytes : List Nat
deriving Repr, DecidableEq

/-- The header object built by `FreeloApiClient.downloadFile`: only
Authorization and User-Agent, no Content-Type. -/
def downloadHeaders (email apiKey : String) : List (String × String) :=
  [("Authorization", "Basic " ++ credentials email apiKey),
   ("User-Agent", "freelo-mcp (" ++ email ++ ")")]

/-- The `fetch` call dispatched by `downloadFile` (no `method` option is
passed, so `fetch` uses its default GET). -/
def downloadFetchCall (email apiKey fileUuid : String) : FetchCall :=
  FetchCall.mk (baseUrl ++ "/file/" ++ fileUuid) "GET"
    (downloadHeaders email apiKey)

/-- Embeds `FreeloApiClient.downloadFile`: no `try`/`catch`, so a transport
rejection propagates with its original message; a non-ok status throws
`Failed to download file: status statusText`; an ok status returns
`response.arrayBuffer()` verbatim. -/
def downloadFile (email apiKey fileUuid : String)
    (net : Except String ByteResponse) : Except String (List Nat) :=
  let _call := downloadFetchCall email apiKey fileUuid
  match net with
  | Except.error msg => Except.error msg
  | Except.ok resp =>
    if respOk resp.status then Except.ok resp.bytes
    else
      Except.error
        ("Failed to download file: " ++ toString resp.status ++ " " ++ resp.statusText)

/-- The credential state held by a constructed `FreeloApiClient`. -/
structure FreeloApiClient where
  email : String
  apiKey : String
deriving Repr, DecidableEq

/-- The `FreeloApiClient` constructor: `!email` / `!apiKey` are true exactly
on the empty string, each raising its configuration error before any request
logic runs (the model takes no network oracle). -/
def FreeloApiClient.construct (email apiKey : String) :
    Except String FreeloApiClient :=
  if email = "" then
    Except.error "Freelo email is required. Set FREELO_EMAIL environment variable."
  else if apiKey = "" then
    Except.error "Freelo API key is required. Set FREELO_API_KEY environment variable."
  else
    Except.ok (FreeloApiClient.mk email apiKey)

/-- JS falsiness of `process.env.X` (a string or `undefined`): absent or
empty. -/
def envFalsy (v : Option String) : Bool :=
  match v with
  | none => true
  | some s => s == ""

/-- Embeds `createFreeloClient`: reads `FREELO_EMAIL` / `FREELO_API_KEY` from the
environment (each `Option String`), fails on a falsy value, otherwise
delegates to the constructor. -/
def createFreeloClient (envEmail envApiKey : Option String) :
    Except String FreeloApiClient :=
  if envFalsy envEmail then
    Except.error
      ("FREELO_EMAIL environment variable is not set. "
        ++ "Please configure it in your MCP server settings.")
  else if envFalsy envApiKey then
    Except.error
      ("FREELO_API_KEY environment variable is not set. "
        ++ "Please configure it in your MCP server settings.")
  else
    FreeloApiClient.construct (envEmail.getD "") (envApiKey.getD "")

/-- Embeds `FreeloApiClient.listTaskAttachments`: throws unconditionally, touching
neither its argument nor the network (the model takes no network oracle). -/
def listTaskAttachments (taskId : Int) : Except String (List Json) :=
  let _ := taskId
  Except.error
    ("API does not support /task/{id}/attachments endpoint. "
      ++ "Files are included in task comments. Use getTask() instead.")

/-- Embeds `FreeloApiClient.getAttachment`: throws unconditionally, touching
neither its argument nor the network (the model takes no network oracle). -/
def getAttachment (attachmentId : Int) : Except String Json :=
  let _ := attachmentId
  Except.error
    ("API does not support /attachments/{id} endpoint. "
      ++ "Files use UUIDs. Use downloadFile(uuid) instead.")

/-- A subtask's nested state record (`FreeloState`). -/
structure FreeloStateV where
  id : Int
  state : String
deriving Repr, DecidableEq

/-- The part of a `FreeloSubtask` that the list-subtasks tool's statistics
read (`subtask.state.state` via the formatted projection). -/
structure FreeloSubtaskV where
  id : Int
  name : String
  state : FreeloStateV
deriving Repr, DecidableEq

/-- The `state` field of the tool's `formattedSubtasks` entry:
`subtask.state.state`. -/
def formattedState (st : FreeloSubtaskV) : String :=
  st.state.state

/-- Embeds `completedCount` of `FreeloListTaskSubtasks.execute`: subtasks whose
formatted state is `completed` or `finished`. -/
def completedCount (xs : List FreeloSubtaskV) : Nat :=
  (xs.filter (fun st =>
    formattedState st == "completed" || formattedState st == "finished")).length

/-- The `statistics` object of the tool's success payload. -/
structure SubtaskStatistics where
  total : Nat
  completed : Nat
  remaining : Int
  completionPercentage : Nat
deriving Repr, DecidableEq

/-- Fuel-driven floor of log2 (the fuel only bounds recursion depth). -/
def natLog2F : Nat → Nat → Nat
  | 0, _ => 0
  | fuel + 1, n => if n < 2 then 0 else natLog2F fuel (n / 2) + 1

/-- Floor of log2 of a positive natural. -/
def natLog2 (n : Nat) : Nat := natLog2F n n

/-- Whether the positive rational `a / b` is below `2 ^ e`, by integer
comparison. -/
def qLtPow2 (a b : Nat) (e : Int) : Bool :=
  match e with
  | Int.ofNat n => a < 2 ^ n * b
  | Int.negSucc n => a * 2 ^ (n + 1) < b

/-- Floor of log2 of the positive rational `a / b`. -/
def floorLog2N (a b : Nat) : Int :=
  let e0 : Int := (natLog2 a : Int) - (natLog2 b : Int)
  if qLtPow2 a b e0 then e0 - 1 else e0

/-- Round `a / b` (with `b > 0`) to the nearest natural, ties to even. -/
def rheNat (a b : Nat) : Nat :=
  if 2 * (a % b) < b then a / b
  else if b < 2 * (a % b) then a / b + 1
  else if (a / b) % 2 = 0 then a / b else a / b + 1

/-- The fraction `(a / b) / 2 ^ u` as a numerator/denominator pair. -/
def scaledPair (a b : Nat) (u : Int) : Nat × Nat :=
  match u with
  | Int.ofNat n => (a, b * 2 ^ n)
  | Int.negSucc n => (a * 2 ^ (n + 1), b)

/-- Nearest binary64 double of the nonnegative fraction `a / b` (with
`b > 0`), as a pair (mantissa, exponent) of value mantissa times `2 ^ exp`:
round to the nearest multiple of the ulp `2 ^ (floorLog2 - 52)` (clamped to
the subnormal ulp `2 ^ (-1074)`), ties to even. Overflow to infinity is out
of range for the values arising here. -/
def flPair (a b : Nat) : Nat × Int :=
  if a = 0 then (0, 0)
  else
    (rheNat (scaledPair a b (max (floorLog2N a b - 52) (-1074))).1
            (scaledPair a b (max (floorLog2N a b - 52) (-1074))).2,
     max (floorLog2N a b - 52) (-1074))

/-- The exact value `a * 2 ^ u` as a numerator/denominator pair. -/
def mulPow2Pair (a : Nat) (u : Int) : Nat × Nat :=
  match u with
  | Int.ofNat n => (a * 2 ^ n, 1)
  | Int.negSucc n => (a, 2 ^ (n + 1))

/-- `Math.round` of the nonnegative value `m * 2 ^ u`: the floor of the
value plus one half (ECMA rounds ties toward positive infinity). -/
def roundVal (m : Nat) (u : Int) : Nat :=
  match u with
  | Int.ofNat n => m * 2 ^ n
  | Int.negSucc n => (2 * m + 2 ^ (n + 1)) / 2 ^ (n + 2)

/-- The tool's `Math.round((completed / total) * 100)` in IEEE-754 binary64:
the division is rounded to the nearest double, the product by 100 is rounded
to the nearest double, and `Math.round` is applied to the result. The
operands are exact (a JS array length is below `2 ^ 32`, hence an exact
double). -/
def jsPercentage (completed total : Nat) : Nat :=
  let x := flPair completed total
  let p := mulPow2Pair (x.1 * 100) x.2
  let y := flPair p.1 p.2
  roundVal y.1 y.2

/-- The rational value of a (mantissa, exponent) pair. -/
def dval (m : Nat) (u : Int) : ℚ := (m : ℚ) * (2 : ℚ) ^ u

/-- The relative rounding error bound of binary64, `2 ^ (-53)`. -/
def ulpEps : ℚ := 1 / 2 ^ 53

/-- The absolute rounding error bound at the subnormal end, `2 ^ (-1075)`. -/
def ulpTiny : ℚ := 1 / 2 ^ 1075

/-- Embeds the tool's `statistics` object: `completionPercentage` is
`Math.round((completedCount / totalCount) * 100)` computed by `jsPercentage`
in IEEE-754 binary64 arithmetic, exactly as JS evaluates it. -/
def subtaskStatistics (xs : List FreeloSubtaskV) : SubtaskStatistics :=
  SubtaskStatistics.mk xs.length (completedCount xs)
    ((xs.length : Int) - (completedCount xs : Int))
    (if 0 < xs.length then jsPercentage (completedCount xs) xs.length else 0)

/-- The 40-subtask list with 23 completed on which binary64 evaluation
(57) and exact rounding (58) of the completion percentage disagree:
`(23 / 40) * 100` evaluates to the double just below `57.5`. -/
def divergenceList : List FreeloSubtaskV :=
  List.replicate 23 (FreeloSubtaskV.mk 1 "done" (FreeloStateV.mk 1 "completed"))
    ++ List.replicate 17 (FreeloSubtaskV.mk 2 "open" (FreeloStateV.mk 2 "active"))

/-- C1 (amended): whenever the caller-supplied override headers contain no
Authorization (resp. User-Agent) key — in particular for every request the
repository itself issues, which pass no overrides — the dispatched headers
carry Authorization = `Basic ` ++ base64(`identity:secret`) and the
identity-embedding User-Agent, independent of path, method and body. -/
theorem C1_mandatory_headers (email apiKey endpoint : String)
    (options : RequestOptions)
    (hA : lookupStr options.headers "Authorization" = none)
    (hU : lookupStr options.headers "User-Agent" = none) :
    lookupStr (requestFetchCall email apiKey endpoint options).headers "Authorization"
      = some ("Basic " ++ base64Encode (utf8Encode (email ++ ":" ++ apiKey)))
    ∧ lookupStr (requestFetchCall email apiKey endpoint options).headers "User-Agent"
      = some ("freelo-mcp (" ++ email ++ ")") := by
  constructor <;>
    simp [requestFetchCall, requestHeaders, mergeHeaders, lookupStr, credentials, hA, hU]

/-- C1 witness: with an override header list that touches neither
Authorization nor User-Agent, both mandatory headers are dispatched. -/
theorem C1_mandatory_headers_witness :
    lookupStr (RequestOptions.mk "GET" [("X-Request-Id", "1")]).headers
        "Authorization" = none
    ∧ lookupStr (RequestOptions.mk "GET" [("X-Request-Id", "1")]).headers
        "User-Agent" = none
    ∧ lookupStr (requestFetchCall "a" "b" "/task/1"
          (RequestOptions.mk "GET" [("X-Request-Id", "1")])).headers "Authorization"
        = some ("Basic " ++ base64Encode (utf8Encode ("a" ++ ":" ++ "b")))
    ∧ lookupStr (requestFetchCall "a" "b" "/task/1"
          (RequestOptions.mk "GET" [("X-Request-Id", "1")])).headers "User-Agent"
        = some ("freelo-mcp (" ++ "a" ++ ")") := by
  refine ⟨by decide, by decide, ?_, ?_⟩
  · exact (C1_mandatory_headers "a" "b" "/task/1"
      (RequestOptions.mk "GET" [("X-Request-Id", "1")]) (by decide) (by decide)).1
  · exact (C1_mandatory_headers "a" "b" "/task/1"
      (RequestOptions.mk "GET" [("X-Request-Id", "1")]) (by decide) (by decide)).2

/-- C1 counterexample: `options.headers` is spread after the mandatory
headers, so a caller-supplied Authorization header replaces the Basic-Auth
credential value, contradicting the claim that it is never replaced. -/
theorem C1_counterexample :
    lookupStr (requestFetchCall "a" "b" "/task/1"
        (RequestOptions.mk "GET" [("Authorization", "x")])).headers "Authorization"
      = some "x"
    ∧ "x" ≠ "Basic " ++ base64Encode (utf8Encode ("a" ++ ":" ++ "b")) := by
  exact ⟨rfl, by decide⟩

/-- C2 counterexample: `downloadFile` has no `try`/`catch`, so a transport
fault propagates with its raw message, which does not carry the
`Freelo API error: ` prefix. -/
theorem C2_counterexample :
    downloadFile "a" "b" "u" (Except.error "fetch failed") = Except.error "fetch failed"
    ∧ ("fetch failed".startsWith "Freelo API error: ") = false := by
  exact ⟨rfl, by decide⟩

/-- C2 (amended): a transport fault is caught and re-raised with the
`Freelo API error: ` prefix by the operations that go through the executor's
`request` method (`getTask`, `listTaskSubtasks`); `downloadFile` dispatches
its own fetch without a `try`/`catch` and lets the raw transport exception
escape unwrapped. -/
theorem C2_transport_fault_handling (email apiKey : String) (taskId : Int)
    (fileUuid msg : String) :
    getTask email apiKey taskId (Except.error msg)
      = Except.error ("Freelo API error: " ++ msg)
    ∧ listTaskSubtasks email apiKey taskId (Except.error msg)
      = Except.error ("Freelo API error: " ++ msg)
    ∧ downloadFile email apiKey fileUuid (Except.error msg) = Except.error msg := by
  exact ⟨rfl, rfl, rfl⟩

/-- C3: on a non-success HTTP status, the raised error message is, in order
of preference, the JSON error body's nonempty `message` field, else its
nonempty `error` field, else the HTTP status line (containing the numeric
status) when the body is not parseable JSON — always carrying the
`Freelo API error: ` prefix. -/
theorem C3_nonsuccess_message_selection (email apiKey endpoint : String)
    (options : RequestOptions) (resp : JsonHttpResponse)
    (hok : respOk resp.status = false) :
    (∀ j m, resp.jsonBody = some j → jsField j "message" = some (Json.str m) →
      m ≠ "" →
      requestM email apiKey endpoint options (Except.ok resp)
        = Except.error ("Freelo API error: " ++ m))
    ∧ (∀ j e, resp.jsonBody = some j → jsTruthy (jsField j "message") = false →
        jsField j "error" = some (Json.str e) → e ≠ "" →
      requestM email apiKey endpoint options (Except.ok resp)
        = Except.error ("Freelo API error: " ++ e))
    ∧ (resp.jsonBody = none →
      requestM email apiKey endpoint options (Except.ok resp)
        = Except.error ("Freelo API error: "
            ++ ("API request failed: " ++ toString resp.status ++ " "
                ++ resp.statusText))) := by
  refine ⟨?_, ?_, ?_⟩
  · intro j m hb hm hne
    simp [requestM, hok, hb, jsOrElse, hm, jsTruthy, jsToStr, hne]
  · intro j e hb hm he hne
    simp only [requestM, hok, hb, jsOrElse, hm, he]
    simp [jsTruthy, jsToStr, hne]
  · intro hb
    simp [requestM, hok, hb]

/-- C3 witness: an HTTP 404 with body
`{"error":"not_found","message":"Task not found"}` raises a message
containing `Task not found`, and an HTTP 500 with a non-JSON body raises a
message containing `500`. -/
theorem C3_nonsuccess_message_selection_witness :
    respOk 404 = false
    ∧ requestM "a" "b" "/task/1" emptyOptions
        (Except.ok (JsonHttpResponse.mk 404 "Not Found"
          (some (Json.obj [("error", Json.str "not_found"),
                           ("message", Json.str "Task not found")])) ""))
        = Except.error ("Freelo API error: " ++ "Task not found")
    ∧ requestM "a" "b" "/task/1" emptyOptions
        (Except.ok (JsonHttpResponse.mk 500 "Internal Server Error" none "bad json"))
        = Except.error ("Freelo API error: "
            ++ ("API request failed: " ++ toString 500 ++ " " ++ "Internal Server Error")) := by
  refine ⟨by decide, ?_, ?_⟩
  · exact (C3_nonsuccess_message_selection "a" "b" "/task/1" emptyOptions _
      (by decide)).1 _ "Task not found" rfl rfl (by decide)
  · exact (C3_nonsuccess_message_selection "a" "b" "/task/1" emptyOptions _
      (by decide)).2.2 rfl

/-- C4: for every paginated envelope, `listTaskSubtasks` returns exactly the
inner `data.subtasks` list, in order, discarding the
total/count/page/per_page metadata, with a single request. -/
theorem C4_envelope_unwrapped (email apiKey : String) (taskId : Int)
    (resp : JsonHttpResponse) (envFields dFields : List (String × Json))
    (xs : List Json)
    (hok : respOk resp.status = true)
    (hb : resp.jsonBody = some (Json.obj envFields))
    (hd : jsLookup envFields "data" = some (Json.obj dFields))
    (hs : jsLookup dFields "subtasks" = some (Json.arr xs)) :
    listTaskSubtasks email apiKey taskId (Except.ok resp)
      = Except.ok (some (Json.arr xs)) := by
  simp [listTaskSubtasks, requestM, hok, hb, jsField, hd, hs]

/-- C4 witness: the envelope `{total:5, count:2, page:1, per_page:2,
data:{subtasks:[A,B]}}` yields exactly `[A, B]`. -/
theorem C4_envelope_unwrapped_witness :
    respOk 200 = true
    ∧ listTaskSubtasks "a" "b" 7
        (Except.ok (JsonHttpResponse.mk 200 "OK"
          (some (Json.obj
            [("total", Json.num 5), ("count", Json.num 2), ("page", Json.num 1),
             ("per_page", Json.num 2),
             ("data", Json.obj [("subtasks",
               Json.arr [Json.obj [("id", Json.num 1), ("name", Json.str "A")],
                         Json.obj [("id", Json.num 2), ("name", Json.str "B")]])])]))
          ""))
        = Except.ok (some (Json.arr
            [Json.obj [("id", Json.num 1), ("name", Json.str "A")],
             Json.obj [("id", Json.num 2), ("name", Json.str "B")]])) := by
  refine ⟨by decide, ?_⟩
  exact C4_envelope_unwrapped "a" "b" 7 _ _ _ _ (by decide) rfl rfl rfl

/-- C5: constructing the executor succeeds for every pair of non-empty
identity and secret strings and fails with a configuration error whenever
either value is empty or absent; the constructor model takes no network
oracle, so no request is attempted in either case. -/
theorem C5_construction (email apiKey : String) (envEmail envApiKey : Option String) :
    (email ≠ "" → apiKey ≠ "" →
      FreeloApiClient.construct email apiKey
        = Except.ok (FreeloApiClient.mk email apiKey))
    ∧ (email = "" → ∃ m, FreeloApiClient.construct email apiKey = Except.error m)
    ∧ (apiKey = "" → ∃ m, FreeloApiClient.construct email apiKey = Except.error m)
    ∧ (envFalsy envEmail = false → envFalsy envApiKey = false →
      createFreeloClient envEmail envApiKey
        = Except.ok (FreeloApiClient.mk (envEmail.getD "") (envApiKey.getD "")))
    ∧ ((envFalsy envEmail = true ∨ envFalsy envApiKey = true) →
      ∃ m, createFreeloClient envEmail envApiKey = Except.error m) := by
  refine ⟨?_, ?_, ?_, ?_, ?_⟩
  · intro he hk
    simp [FreeloApiClient.construct, he, hk]
  · intro he
    exact ⟨"Freelo email is required. Set FREELO_EMAIL environment variable.",
      by simp [FreeloApiClient.construct, he]⟩
  · intro hk
    by_cases he : email = ""
    · exact ⟨"Freelo email is required. Set FREELO_EMAIL environment variable.",
        by simp [FreeloApiClient.construct, he]⟩
    · exact ⟨"Freelo API key is required. Set FREELO_API_KEY environment variable.",
        by simp [FreeloApiClient.construct, he, hk]⟩
  · intro he hk
    have he2 : envEmail.getD "" ≠ "" := by
      cases envEmail with
      | none => simp [envFalsy] at he
      | some s =>
        simp [envFalsy] at he
        simpa using he
    have hk2 : envApiKey.getD "" ≠ "" := by
      cases envApiKey with
      | none => simp [envFalsy] at hk
      | some s =>
        simp [envFalsy] at hk
        simpa using hk
    simp [createFreeloClient, he, hk, FreeloApiClient.construct, he2, hk2]
  · intro h
    cases h with
    | inl he =>
      exact ⟨"FREELO_EMAIL environment variable is not set. "
          ++ "Please configure it in your MCP server settings.",
        by simp [createFreeloClient, he]⟩
    | inr hk =>
      by_cases he : envFalsy envEmail = true
      · exact ⟨"FREELO_EMAIL environment variable is not set. "
            ++ "Please configure it in your MCP server settings.",
          by simp [createFreeloClient, he]⟩
      · exact ⟨"FREELO_API_KEY environment variable is not set. "
            ++ "Please configure it in your MCP server settings.",
          by simp [createFreeloClient, he, hk]⟩

/-- C5 witness: construction succeeds on the concrete non-empty pair
`alice` / `key`. -/
theorem C5_construction_witness :
    ("alice" : String) ≠ "" ∧ ("key" : String) ≠ ""
    ∧ FreeloApiClient.construct "alice" "key"
        = Except.ok (FreeloApiClient.mk "alice" "key") := by
  exact ⟨by decide, by decide,
    (C5_construction "alice" "key" (some "alice") (some "key")).1 (by decide) (by decide)⟩

/-- C6: `listTaskAttachments` and `getAttachment` raise their fixed
unsupported-operation errors for every argument, with a result independent
of the argument; neither model takes a network oracle, so no network call
occurs. -/
theorem C6_unsupported_accessors (a b : Int) :
    listTaskAttachments a
      = Except.error ("API does not support /task/{id}/attachments endpoint. "
          ++ "Files are included in task comments. Use getTask() instead.")
    ∧ listTaskAttachments a = listTaskAttachments b
    ∧ getAttachment a
      = Except.error ("API does not support /attachments/{id} endpoint. "
          ++ "Files use UUIDs. Use downloadFile(uuid) instead.")
    ∧ getAttachment a = getAttachment b :=
  ⟨rfl, rfl, rfl, rfl⟩

/-- C7: `downloadFile` issues a GET to the UUID-parameterized path with
exactly the Authorization and User-Agent headers (no
`Content-Type: application/json`), and on a success status returns the
response bytes verbatim. -/
theorem C7_download_contract (email apiKey fileUuid : String)
    (resp : ByteResponse) (hok : respOk resp.status = true) :
    (downloadFetchCall email apiKey fileUuid).method = "GET"
    ∧ (downloadFetchCall email apiKey fileUuid).url
        = "https://api.freelo.io/v1" ++ "/file/" ++ fileUuid
    ∧ (downloadFetchCall email apiKey fileUuid).headers
        = [("Authorization",
            "Basic " ++ base64Encode (utf8Encode (email ++ ":" ++ apiKey))),
           ("User-Agent", "freelo-mcp (" ++ email ++ ")")]
    ∧ lookupStr (downloadFetchCall email apiKey fileUuid).headers "Content-Type" = none
    ∧ downloadFile email apiKey fileUuid (Except.ok resp) = Except.ok resp.bytes := by
  refine ⟨rfl, rfl, rfl, ?_, ?_⟩
  · simp [downloadFetchCall, downloadHeaders, lookupStr]
  · simp [downloadFile, hok]

/-- C7 witness: a 200 response with bytes `[0, 255, 10]` is returned
verbatim. -/
theorem C7_download_contract_witness :
    respOk 200 = true
    ∧ downloadFile "a" "b" "u" (Except.ok (ByteResponse.mk 200 "OK" [0, 255, 10]))
        = Except.ok [0, 255, 10] := by
  exact ⟨by decide, (C7_download_contract "a" "b" "u" _ (by decide)).2.2.2.2⟩

/-- C8: on a success-range status whose body parses as JSON, `request` (and
hence `getTask`) returns the parsed value unmodified, with no schema
validation or field filtering. -/
theorem C8_success_returns_parsed_json (email apiKey endpoint : String)
    (options : RequestOptions) (taskId : Int) (resp : JsonHttpResponse) (j : Json)
    (hok : respOk resp.status = true) (hb : resp.jsonBody = some j) :
    requestM email apiKey endpoint options (Except.ok resp) = Except.ok j
    ∧ getTask email apiKey taskId (Except.ok resp) = Except.ok j := by
  constructor <;> simp [requestM, getTask, hok, hb]

/-- C8 witness: the body `{"id":42, "name":"X", "priority_enum":"m"}` is
returned unmodified, with `id` field 42 and `name` field `X`. -/
theorem C8_success_returns_parsed_json_witness :
    respOk 200 = true
    ∧ getTask "a" "b" 42
        (Except.ok (JsonHttpResponse.mk 200 "OK"
          (some (Json.obj [("id", Json.num 42), ("name", Json.str "X"),
                           ("priority_enum", Json.str "m")])) ""))
        = Except.ok (Json.obj [("id", Json.num 42), ("name", Json.str "X"),
                               ("priority_enum", Json.str "m")])
    ∧ jsField (Json.obj [("id", Json.num 42), ("name", Json.str "X"),
                         ("priority_enum", Json.str "m")]) "id" = some (Json.num 42)
    ∧ jsField (Json.obj [("id", Json.num 42), ("name", Json.str "X"),
                         ("priority_enum", Json.str "m")]) "name"
        = some (Json.str "X") := by
  exact ⟨by decide,
    (C8_success_returns_parsed_json "a" "b" "/task/42" emptyOptions 42 _ _
      (by decide) rfl).2, rfl, rfl⟩

/-- C9: on a success-range status whose body is not valid JSON, `request`
does not return a success value: the parse failure is re-raised as an error
carrying the `Freelo API error: ` prefix. -/
theorem C9_nonjson_success_body_wrapped (email apiKey endpoint : String)
    (options : RequestOptions) (resp : JsonHttpResponse)
    (hok : respOk resp.status = true) (hb : resp.jsonBody = none) :
    requestM email apiKey endpoint options (Except.ok resp)
      = Except.error ("Freelo API error: " ++ resp.jsonParseMsg) := by
  simp [requestM, hok, hb]

/-- C9 witness: a 200 response with an unparseable body yields the wrapped
parse error. -/
theorem C9_nonjson_success_body_wrapped_witness :
    respOk 200 = true
    ∧ requestM "a" "b" "/task/1" emptyOptions
        (Except.ok (JsonHttpResponse.mk 200 "OK" none "Unexpected token < in JSON"))
        = Except.error ("Freelo API error: " ++ "Unexpected token < in JSON") := by
  exact ⟨by decide,
    C9_nonjson_success_body_wrapped "a" "b" "/task/1" emptyOptions _ (by decide) rfl⟩

theorem natLog2F_spec : ∀ fuel n, 0 < n → n ≤ fuel →
    2 ^ natLog2F fuel n ≤ n ∧ n < 2 ^ (natLog2F fuel n + 1) := by
  intro fuel
  induction fuel with
  | zero => intro n h1 h2; omega
  | succ fuel ih =>
    intro n h1 h2
    by_cases hn : n < 2
    · have hone : n = 1 := by omega
      subst hone
      simp [natLog2F]
    · have hrec := ih (n / 2) (by omega) (by omega)
      have hk : natLog2F (fuel + 1) n = natLog2F fuel (n / 2) + 1 := by
        simp [natLog2F, hn]
      rw [hk]
      have e1 : 2 ^ (natLog2F fuel (n / 2) + 1) = 2 * 2 ^ natLog2F fuel (n / 2) := by
        ring
      have e2 : 2 ^ (natLog2F fuel (n / 2) + 1 + 1)
          = 4 * 2 ^ natLog2F fuel (n / 2) := by
        ring
      omega

theorem natLog2_le (n : Nat) (h : 0 < n) : 2 ^ natLog2 n ≤ n :=
  (natLog2F_spec n n h le_rfl).1

theorem natLog2_lt (n : Nat) (h : 0 < n) : n < 2 ^ (natLog2 n + 1) :=
  (natLog2F_spec n n h le_rfl).2

theorem qLtPow2_iff (a b : Nat) (hb : 0 < b) (e : Int) :
    qLtPow2 a b e = true ↔ (a : ℚ) / (b : ℚ) < (2 : ℚ) ^ e := by
  have hb2 : (0 : ℚ) < (b : ℚ) := by exact_mod_cast hb
  cases e with
  | ofNat n =>
    simp only [qLtPow2, decide_eq_true_eq]
    rw [show (Int.ofNat n : Int) = (n : Int) from rfl, zpow_natCast, div_lt_iff₀ hb2]
    constructor
    · intro h
      exact_mod_cast h
    · intro h
      exact_mod_cast h
  | negSucc n =>
    simp only [qLtPow2, decide_eq_true_eq]
    have hp : (0 : ℚ) < (2 : ℚ) ^ (n + 1) := by positivity
    rw [zpow_negSucc, inv_eq_one_div, div_lt_div_iff₀ hb2 hp, one_mul]
    constructor
    · intro h
      exact_mod_cast h
    · intro h
      exact_mod_cast h

theorem floorLog2N_le (a b : Nat) (ha : 0 < a) (hb : 0 < b) :
    (2 : ℚ) ^ floorLog2N a b ≤ (a : ℚ) / (b : ℚ) := by
  have hb2 : (0 : ℚ) < (b : ℚ) := by exact_mod_cast hb
  unfold floorLog2N
  by_cases hlt : qLtPow2 a b ((natLog2 a : Int) - (natLog2 b : Int)) = true
  · simp only [hlt, if_true]
    have h1 : (2 : ℚ) ^ natLog2 a ≤ (a : ℚ) := by
      exact_mod_cast natLog2_le a ha
    have h2 : (b : ℚ) < (2 : ℚ) ^ (natLog2 b + 1) := by
      exact_mod_cast natLog2_lt b hb
    have key : (2 : ℚ) ^ ((natLog2 a : Int) - (natLog2 b : Int) - 1)
        = (2 : ℚ) ^ natLog2 a / (2 : ℚ) ^ (natLog2 b + 1) := by
      rw [← zpow_natCast (2 : ℚ) (natLog2 a), ← zpow_natCast (2 : ℚ) (natLog2 b + 1),
        ← zpow_sub₀ (by norm_num : (2 : ℚ) ≠ 0)]
      congr 1
      push_cast
      ring
    rw [key]
    exact div_le_div₀ (by positivity) h1 (by positivity) h2.le
  · simp only [hlt, if_false]
    have := (qLtPow2_iff a b hb ((natLog2 a : Int) - (natLog2 b : Int))).not
    rw [not_lt] at this
    exact this.mp (by simpa using hlt)

theorem rheNat_le (a b : Nat) (hb : 0 < b) :
    (rheNat a b : ℚ) ≤ (a : ℚ) / (b : ℚ) + 1 / 2 := by
  have hb2 : (0 : ℚ) < (b : ℚ) := by exact_mod_cast hb
  have hdiv : (a : ℚ) / (b : ℚ) = ((a / b : Nat) : ℚ) + ((a % b : Nat) : ℚ) / (b : ℚ) := by
    have hmod : b * (a / b) + a % b = a := Nat.div_add_mod a b
    have : (a : ℚ) = (b : ℚ) * ((a / b : Nat) : ℚ) + ((a % b : Nat) : ℚ) := by
      exact_mod_cast hmod.symm
    rw [this]
    field_simp
    ring
  have hrnn : (0 : ℚ) ≤ ((a % b : Nat) : ℚ) / (b : ℚ) := by positivity
  unfold rheNat
  split_ifs with h1 h2 h3
  · rw [hdiv]
    linarith
  · have hhalf : 1 / 2 ≤ ((a % b : Nat) : ℚ) / (b : ℚ) := by
      rw [div_le_div_iff₀ (by norm_num) hb2]
      have : (b : ℚ) < 2 * ((a % b : Nat) : ℚ) := by exact_mod_cast h2
      linarith
    rw [hdiv]
    push_cast
    linarith
  · rw [hdiv]
    linarith
  · have heq : (b : ℚ) = 2 * ((a % b : Nat) : ℚ) := by
      have h2r : 2 * (a % b) = b := by omega
      exact_mod_cast h2r.symm
    have hr0 : (0 : ℚ) < ((a % b : Nat) : ℚ) := by
      have hx : 0 < a % b := by omega
      exact_mod_cast hx
    have hhalf : ((a % b : Nat) : ℚ) / (b : ℚ) = 1 / 2 := by
      rw [heq, div_eq_iff (ne_of_gt (by linarith : (0 : ℚ) < 2 * ((a % b : Nat) : ℚ)))]
      ring
    rw [hdiv, hhalf]
    push_cast
    linarith

theorem scaledPair_snd_pos (a b : Nat) (hb : 0 < b) (u : Int) :
    0 < (scaledPair a b u).2 := by
  cases u with
  | ofNat n =>
    simp only [scaledPair]
    exact Nat.mul_pos hb (Nat.pos_pow_of_pos n (by norm_num))
  | negSucc n =>
    simpa [scaledPair] using hb

theorem scaledPair_val (a b : Nat) (hb : 0 < b) (u : Int) :
    ((scaledPair a b u).1 : ℚ) / ((scaledPair a b u).2 : ℚ)
      = ((a : ℚ) / (b : ℚ)) / (2 : ℚ) ^ u := by
  have hb2 : (0 : ℚ) < (b : ℚ) := by exact_mod_cast hb
  cases u with
  | ofNat n =>
    simp only [scaledPair]
    rw [show (Int.ofNat n : Int) = (n : Int) from rfl, zpow_natCast]
    push_cast
    rw [div_div]
  | negSucc n =>
    simp only [scaledPair]
    rw [zpow_negSucc]
    push_cast
    field_simp

theorem mulPow2Pair_snd_pos (a : Nat) (u : Int) : 0 < (mulPow2Pair a u).2 := by
  cases u with
  | ofNat n => simp [mulPow2Pair]
  | negSucc n =>
    simp only [mulPow2Pair]
    exact Nat.pos_pow_of_pos (n + 1) (by norm_num)

theorem mulPow2Pair_val (a : Nat) (u : Int) :
    ((mulPow2Pair a u).1 : ℚ) / ((mulPow2Pair a u).2 : ℚ)
      = (a : ℚ) * (2 : ℚ) ^ u := by
  cases u with
  | ofNat n =>
    simp only [mulPow2Pair]
    rw [show (Int.ofNat n : Int) = (n : Int) from rfl, zpow_natCast]
    push_cast
    ring
  | negSucc n =>
    simp only [mulPow2Pair]
    rw [zpow_negSucc]
    push_cast
    rw [div_eq_mul_inv]

theorem roundVal_le (m : Nat) (u : Int) :
    (roundVal m u : ℚ) ≤ dval m u + 1 / 2 := by
  cases u with
  | ofNat n =>
    simp only [roundVal, dval]
    rw [show (Int.ofNat n : Int) = (n : Int) from rfl, zpow_natCast]
    push_cast
    linarith
  | negSucc n =>
    simp only [roundVal, dval]
    rw [zpow_negSucc]
    have h1 : (((2 * m + 2 ^ (n + 1)) / 2 ^ (n + 2) : Nat) : ℚ)
        ≤ ((2 * m + 2 ^ (n + 1) : Nat) : ℚ) / ((2 ^ (n + 2) : Nat) : ℚ) :=
      Nat.cast_div_le
    have h2 : ((2 * m + 2 ^ (n + 1) : Nat) : ℚ) / ((2 ^ (n + 2) : Nat) : ℚ)
        = (m : ℚ) * ((2 : ℚ) ^ (n + 1))⁻¹ + 1 / 2 := by
      push_cast
      rw [div_eq_iff (by positivity)]
      field_simp
      ring
    rw [h2] at h1
    exact h1

theorem dval_nonneg (m : Nat) (u : Int) : 0 ≤ dval m u := by
  unfold dval
  positivity

theorem ulpEps_bounds : 0 ≤ ulpEps ∧ ulpEps ≤ 1 / 1000 := by
  unfold ulpEps
  norm_num

theorem ulpTiny_bounds : 0 ≤ ulpTiny ∧ ulpTiny ≤ 1 / 1000 := by
  unfold ulpTiny
  norm_num

theorem flPair_le (a b : Nat) (hb : 0 < b) :
    dval (flPair a b).1 (flPair a b).2
      ≤ ((a : ℚ) / (b : ℚ)) * (1 + ulpEps) + ulpTiny := by
  have hb2 : (0 : ℚ) < (b : ℚ) := by exact_mod_cast hb
  by_cases ha : a = 0
  · subst ha
    simp only [flPair, if_true]
    unfold dval ulpTiny
    norm_num
  · simp only [flPair, ha, if_false]
    have hu2 : (0 : ℚ) < (2 : ℚ) ^ (max (floorLog2N a b - 52) (-1074)) :=
      zpow_pos (by norm_num) _
    have hp2 : 0 < (scaledPair a b (max (floorLog2N a b - 52) (-1074))).2 :=
      scaledPair_snd_pos a b hb _
    have hrhe := rheNat_le (scaledPair a b (max (floorLog2N a b - 52) (-1074))).1
      (scaledPair a b (max (floorLog2N a b - 52) (-1074))).2 hp2
    rw [scaledPair_val a b hb] at hrhe
    have step1 : dval (rheNat (scaledPair a b (max (floorLog2N a b - 52) (-1074))).1
          (scaledPair a b (max (floorLog2N a b - 52) (-1074))).2)
          (max (floorLog2N a b - 52) (-1074))
        ≤ (a : ℚ) / (b : ℚ) + (2 : ℚ) ^ (max (floorLog2N a b - 52) (-1074)) / 2 := by
      unfold dval
      calc (rheNat (scaledPair a b (max (floorLog2N a b - 52) (-1074))).1
              (scaledPair a b (max (floorLog2N a b - 52) (-1074))).2 : ℚ)
            * (2 : ℚ) ^ (max (floorLog2N a b - 52) (-1074))
          ≤ (((a : ℚ) / (b : ℚ)) / (2 : ℚ) ^ (max (floorLog2N a b - 52) (-1074)) + 1 / 2)
            * (2 : ℚ) ^ (max (floorLog2N a b - 52) (-1074)) := by
            exact mul_le_mul_of_nonneg_right hrhe hu2.le
        _ = (a : ℚ) / (b : ℚ) + (2 : ℚ) ^ (max (floorLog2N a b - 52) (-1074)) / 2 := by
            field_simp
            ring
    refine step1.trans ?_
    have habnn : (0 : ℚ) ≤ (a : ℚ) / (b : ℚ) := by positivity
    have hmain : (2 : ℚ) ^ (max (floorLog2N a b - 52) (-1074)) / 2
        ≤ ((a : ℚ) / (b : ℚ)) * ulpEps + ulpTiny := by
      rcases le_or_lt (-1074 : Int) (floorLog2N a b - 52) with hc | hc
      · rw [max_eq_left hc]
        have hL := floorLog2N_le a b (Nat.pos_of_ne_zero ha) hb
        have hsplit : (2 : ℚ) ^ (floorLog2N a b - 52) / 2
            = (2 : ℚ) ^ floorLog2N a b * (2 : ℚ) ^ (-53 : Int) := by
          rw [← zpow_add₀ (by norm_num : (2 : ℚ) ≠ 0)]
          rw [show (floorLog2N a b + -53 : Int) = (floorLog2N a b - 52) - 1 from by ring]
          rw [zpow_sub_one₀ (by norm_num : (2 : ℚ) ≠ 0)]
          rw [div_eq_mul_inv]
        have heps : (2 : ℚ) ^ (-53 : Int) = ulpEps := by
          rw [show (-53 : Int) = -(53 : Nat) from by norm_num, zpow_neg, zpow_natCast]
          unfold ulpEps
          rw [inv_eq_one_div]
        rw [hsplit, heps]
        have : (2 : ℚ) ^ floorLog2N a b * ulpEps ≤ ((a : ℚ) / (b : ℚ)) * ulpEps :=
          mul_le_mul_of_nonneg_right hL ulpEps_bounds.1
        have htn : (0 : ℚ) ≤ ulpTiny := ulpTiny_bounds.1
        linarith
      · rw [max_eq_right hc.le]
        have hsplit : (2 : ℚ) ^ (-1074 : Int) / 2 = (2 : ℚ) ^ (-1075 : Int) := by
          rw [show (-1075 : Int) = (-1074 : Int) - 1 from by ring]
          rw [zpow_sub_one₀ (by norm_num : (2 : ℚ) ≠ 0)]
          rw [div_eq_mul_inv]
        have htiny : (2 : ℚ) ^ (-1075 : Int) = ulpTiny := by
          rw [show (-1075 : Int) = -(1075 : Nat) from by norm_num, zpow_neg, zpow_natCast]
          unfold ulpTiny
          rw [inv_eq_one_div]
        rw [hsplit, htiny]
        have : (0 : ℚ) ≤ ((a : ℚ) / (b : ℚ)) * ulpEps :=
          mul_nonneg habnn ulpEps_bounds.1
        linarith
    linarith

theorem jsPercentage_le (c t : Nat) (hct : c ≤ t) (ht : 0 < t) :
    jsPercentage c t ≤ 100 := by
  have ht2 : (0 : ℚ) < (t : ℚ) := by exact_mod_cast ht
  have hx := flPair_le c t ht
  have hct2 : (c : ℚ) / (t : ℚ) ≤ 1 := by
    rw [div_le_one ht2]
    exact_mod_cast hct
  have hctnn : (0 : ℚ) ≤ (c : ℚ) / (t : ℚ) := by positivity
  have he := ulpEps_bounds
  have hd := ulpTiny_bounds
  have hx1 : dval (flPair c t).1 (flPair c t).2 ≤ 1 + ulpEps + ulpTiny := by
    have : ((c : ℚ) / (t : ℚ)) * (1 + ulpEps) ≤ 1 * (1 + ulpEps) := by
      apply mul_le_mul_of_nonneg_right hct2
      linarith [he.1]
    linarith
  have hxnn := dval_nonneg (flPair c t).1 (flPair c t).2
  have hp2 := mulPow2Pair_snd_pos ((flPair c t).1 * 100) (flPair c t).2
  have hy := flPair_le (mulPow2Pair ((flPair c t).1 * 100) (flPair c t).2).1
    (mulPow2Pair ((flPair c t).1 * 100) (flPair c t).2).2 hp2
  have hpval : ((mulPow2Pair ((flPair c t).1 * 100) (flPair c t).2).1 : ℚ)
      / ((mulPow2Pair ((flPair c t).1 * 100) (flPair c t).2).2 : ℚ)
      = 100 * dval (flPair c t).1 (flPair c t).2 := by
    rw [mulPow2Pair_val]
    unfold dval
    push_cast
    ring
  rw [hpval] at hy
  have hyb : dval (flPair (mulPow2Pair ((flPair c t).1 * 100) (flPair c t).2).1
        (mulPow2Pair ((flPair c t).1 * 100) (flPair c t).2).2).1
        (flPair (mulPow2Pair ((flPair c t).1 * 100) (flPair c t).2).1
        (mulPow2Pair ((flPair c t).1 * 100) (flPair c t).2).2).2
      ≤ 100 * (1 + ulpEps + ulpTiny) * (1 + ulpEps) + ulpTiny := by
    have h100 : 100 * dval (flPair c t).1 (flPair c t).2
        ≤ 100 * (1 + ulpEps + ulpTiny) := by linarith
    have hmul : 100 * dval (flPair c t).1 (flPair c t).2 * (1 + ulpEps)
        ≤ 100 * (1 + ulpEps + ulpTiny) * (1 + ulpEps) := by
      apply mul_le_mul_of_nonneg_right h100
      linarith [he.1]
    linarith
  have hr := roundVal_le
    (flPair (mulPow2Pair ((flPair c t).1 * 100) (flPair c t).2).1
      (mulPow2Pair ((flPair c t).1 * 100) (flPair c t).2).2).1
    (flPair (mulPow2Pair ((flPair c t).1 * 100) (flPair c t).2).1
      (mulPow2Pair ((flPair c t).1 * 100) (flPair c t).2).2).2
  have hnum : 100 * (1 + ulpEps + ulpTiny) * (1 + ulpEps) + ulpTiny + 1 / 2
      < 101 := by nlinarith [he.1, he.2, hd.1, hd.2]
  have hfinal : ((jsPercentage c t : Nat) : ℚ) < 101 := by
    have : jsPercentage c t
        = roundVal
          (flPair (mulPow2Pair ((flPair c t).1 * 100) (flPair c t).2).1
            (mulPow2Pair ((flPair c t).1 * 100) (flPair c t).2).2).1
          (flPair (mulPow2Pair ((flPair c t).1 * 100) (flPair c t).2).1
            (mulPow2Pair ((flPair c t).1 * 100) (flPair c t).2).2).2 := rfl
    rw [this]
    linarith
  have : jsPercentage c t < 101 := by exact_mod_cast hfinal
  omega

/-- C10 counterexample: for 23 completed subtasks out of 40, the program's
IEEE-754 evaluation of `Math.round((23 / 40) * 100)` yields 57 (the double
value of `(23 / 40) * 100` is just below `57.5`), while the claimed exact
`round(100 * completed / total)` is 58. -/
theorem C10_counterexample :
    completedCount divergenceList = 23
    ∧ divergenceList.length = 40
    ∧ (subtaskStatistics divergenceList).completionPercentage = 57
    ∧ Nat.floor ((100 * (completedCount divergenceList : ℚ))
        / (divergenceList.length : ℚ) + 1 / 2) = 58
    ∧ (subtaskStatistics divergenceList).completionPercentage
        ≠ Nat.floor ((100 * (completedCount divergenceList : ℚ))
            / (divergenceList.length : ℚ) + 1 / 2) := by
  have h1 : completedCount divergenceList = 23 := by decide
  have h2 : divergenceList.length = 40 := by decide
  have h3 : (subtaskStatistics divergenceList).completionPercentage = 57 := by decide
  have h4 : Nat.floor ((100 * (completedCount divergenceList : ℚ))
      / (divergenceList.length : ℚ) + 1 / 2) = 58 := by
    rw [h1, h2]
    rw [show (100 * ((23 : Nat) : ℚ)) / ((40 : Nat) : ℚ) + 1 / 2 = 58 by norm_num]
    exact Nat.floor_ofNat 58
  refine ⟨h1, h2, h3, h4, ?_⟩
  rw [h3, h4]
  decide

/-- C10 (amended): the list-subtasks statistics satisfy `total` = list
length, `completed` = number of subtasks in state `completed` or `finished`
(so `completed` is at most `total`), `remaining` = `total` - `completed`,
and `completionPercentage` is `Math.round((completed / total) * 100)`
evaluated in IEEE-754 binary64 arithmetic (`jsPercentage`) for positive
totals — which can differ by one from exact rounding, e.g. 57 instead of 58
at 23 of 40 — and 0 for an empty list; it is always at most 100. -/
theorem C10_subtask_statistics (xs : List FreeloSubtaskV) :
    (subtaskStatistics xs).total = xs.length
    ∧ (subtaskStatistics xs).completed = completedCount xs
    ∧ (subtaskStatistics xs).completed ≤ (subtaskStatistics xs).total
    ∧ (subtaskStatistics xs).remaining
        = ((subtaskStatistics xs).total : Int) - ((subtaskStatistics xs).completed : Int)
    ∧ (xs.length = 0 → (subtaskStatistics xs).completionPercentage = 0)
    ∧ (0 < xs.length →
        (subtaskStatistics xs).completionPercentage
          = jsPercentage (completedCount xs) xs.length)
    ∧ (subtaskStatistics xs).completionPercentage ≤ 100 := by
  have hc : completedCount xs ≤ xs.length := List.length_filter_le _ _
  refine ⟨rfl, rfl, hc, rfl, ?_, ?_, ?_⟩
  · intro h
    simp [subtaskStatistics, h]
  · intro h
    simp [subtaskStatistics, h]
  · by_cases h : 0 < xs.length
    · have hval : (subtaskStatistics xs).completionPercentage
          = jsPercentage (completedCount xs) xs.length := by
        simp [subtaskStatistics, h]
      rw [hval]
      exact jsPercentage_le (completedCount xs) xs.length hc h
    · have hz : xs.length = 0 := by omega
      simp [subtaskStatistics, hz]

/-- C10 witness: for three subtasks of which two are completed/finished,
the binary64 percentage is `Math.round(66.66666666666667) = 67`. -/
theorem C10_subtask_statistics_witness :
    0 < ([FreeloSubtaskV.mk 1 "a" (FreeloStateV.mk 1 "completed"),
          FreeloSubtaskV.mk 2 "b" (FreeloStateV.mk 2 "active"),
          FreeloSubtaskV.mk 3 "c" (FreeloStateV.mk 3 "finished")] : List FreeloSubtaskV).length
    ∧ (subtaskStatistics
        [FreeloSubtaskV.mk 1 "a" (FreeloStateV.mk 1 "completed"),
         FreeloSubtaskV.mk 2 "b" (FreeloStateV.mk 2 "active"),
         FreeloSubtaskV.mk 3 "c" (FreeloStateV.mk 3 "finished")]).completionPercentage
        = jsPercentage
            (completedCount
              [FreeloSubtaskV.mk 1 "a" (FreeloStateV.mk 1 "completed"),
               FreeloSubtaskV.mk 2 "b" (FreeloStateV.mk 2 "active"),
               FreeloSubtaskV.mk 3 "c" (FreeloStateV.mk 3 "finished")])
            ([FreeloSubtaskV.mk 1 "a" (FreeloStateV.mk 1 "completed"),
              FreeloSubtaskV.mk 2 "b" (FreeloStateV.mk 2 "active"),
              FreeloSubtaskV.mk 3 "c" (FreeloStateV.mk 3 "finished")] : List FreeloSubtaskV).length
    ∧ jsPercentage 2 3 = 67 := by
  refine ⟨by decide, ?_, by decide⟩
  exact (C10_subtask_statistics
    [FreeloSubtaskV.mk 1 "a" (FreeloStateV.mk 1 "completed"),
     FreeloSubtaskV.mk 2 "b" (FreeloStateV.mk 2 "active"),
     FreeloSubtaskV.mk 3 "c" (FreeloStateV.mk 3 "finished")]).2.2.2.2.2.1 (by decide)
